import Mathlib

/-!
Verification of the `authz` crate's permission-check client: the object
model (`SpiceDbObject` and its wire conversion), the permission catalog
(`Permissions` and its `Display` encoding), the result algebra
(`AuthorizationResult` over `Permissionship` and `AuthorizationError`),
and the repository client (`create_channel` endpoint normalization and
error mapping, the gRPC auth interceptor, and `check_permissions_raw`).

Rust `Result<T, E>` is embedded as `Except E T`, `Option<T>` as
`Option T`, `String` as `String`.  The remote gRPC call and the tonic
transport are external collaborators: they enter the embedding as
explicit function arguments (oracles) whose outcomes the repository code
inspects, exactly mirroring the `match`/`map_err` structure of the
source.
-/

namespace Authz

/-- Wire-level object reference, from the authzed protobuf
`ObjectReference` message: a type (namespace) name and an object id. -/
structure ObjectReference where
  object_type : String
  object_id : String
  deriving DecidableEq, Repr

/-- `SpiceDbObject` from `object.rs`: typed identifiers for resources and
subjects.  Each variant carries exactly one opaque string identifier. -/
inductive SpiceDbObject where
  | Server (id : String)
  | Channel (id : String)
  | User (id : String)
  | PermissionOverride (id : String)
  deriving DecidableEq, Repr

/-- `SpiceDbObject::id` from `object.rs` lines 107-114: extracts the
identifier string, regardless of the variant. -/
def SpiceDbObject.id : SpiceDbObject → String
  | .Server i => i
  | .Channel i => i
  | .User i => i
  | .PermissionOverride i => i

/-- `SpiceDbObject::object_name` from `object.rs` lines 126-133: the
SpiceDB namespace name determined by the variant tag. -/
def SpiceDbObject.object_name : SpiceDbObject → String
  | .Server _ => "server"
  | .Channel _ => "channel"
  | .User _ => "user"
  | .PermissionOverride _ => "permission_override"

/-- `impl Into<ObjectReference> for SpiceDbObject` from `object.rs` lines
140-147, transcribed exactly as written in the source: the source
populates `object_type` with `self.id()` and `object_id` with
`self.object_name()`. -/
def SpiceDbObject.intoObjectReference (self : SpiceDbObject) : ObjectReference :=
  { object_type := self.id
    object_id := self.object_name }

/-- The `Permissions` enum from `permission.rs` lines 39-102: the closed
catalog of capabilities. -/
inductive Permissions where
  | Administrator
  | ManageServer
  | ManageRoles
  | CreateInvitation
  | ManageChannels
  | ManageWebhooks
  | ViewChannels
  | SendMessages
  | ManageNicknames
  | ChangeNickname
  | ManageMessages
  | AttachFiles
  deriving DecidableEq, Repr

/-- `impl Display for Permissions` from `permission.rs` lines 104-121:
the wire string written for each variant. -/
def Permissions.toString : Permissions → String
  | .Administrator => "admin"
  | .ManageServer => "manage"
  | .ManageRoles => "manage_role"
  | .CreateInvitation => "create_invitation"
  | .ManageChannels => "manage_channels"
  | .ManageWebhooks => "manage_webhooks"
  | .ViewChannels => "view_channel"
  | .SendMessages => "send_message"
  | .ManageNicknames => "manage_nicknames"
  | .ChangeNickname => "change_nickname"
  | .ManageMessages => "manage_message"
  | .AttachFiles => "attach_files"

/-- Modelled from the spec: the `Permissionship` enum of the generated
authzed protobuf bindings (`authzed.api.v1.CheckPermissionResponse.Permissionship`),
whose generated source is produced by `build.rs` from proto files that
are not under `src/`.  The spec documents the tri-state outcome
`HasPermission` / `NoPermission` / `ConditionalPermission`; protobuf
enums additionally carry the zero-numbered default `UNSPECIFIED`
variant, with wire numbers UNSPECIFIED = 0, NO_PERMISSION = 1,
HAS_PERMISSION = 2, CONDITIONAL_PERMISSION = 3. -/
inductive Permissionship where
  | Unspecified
  | NoPermission
  | HasPermission
  | ConditionalPermission
  deriving DecidableEq, Repr

/-- The wire (i32) number of each `Permissionship` variant, as assigned
in the authzed proto. -/
def Permissionship.toI32 : Permissionship → Int
  | .Unspecified => 0
  | .NoPermission => 1
  | .HasPermission => 2
  | .ConditionalPermission => 3

/-- Modelled from the spec: decoding of a raw i32 enum field into
`Permissionship`, as in the prost-generated `try_from`. -/
def Permissionship.fromI32 (n : Int) : Option Permissionship :=
  if n = 0 then some .Unspecified
  else if n = 1 then some .NoPermission
  else if n = 2 then some .HasPermission
  else if n = 3 then some .ConditionalPermission
  else none

/-- Modelled from the spec: `CheckPermissionResponse` of the generated
bindings, restricted to the one field this client reads; the raw enum
field is stored as its wire number. -/
structure CheckPermissionResponse where
  permissionship : Int
  deriving DecidableEq, Repr

/-- Modelled from the spec: the prost-generated accessor
`CheckPermissionResponse::permissionship()`, which decodes the raw i32
field and falls back to the default (`Unspecified`) on an unset or
unrecognized number. -/
def CheckPermissionResponse.permissionshipAccessor
    (self : CheckPermissionResponse) : Permissionship :=
  (Permissionship.fromI32 self.permissionship).getD .Unspecified

/-- `AuthorizationError` from `lib.rs`: the two-variant public error
taxonomy. -/
inductive AuthorizationError where
  | Unauthorized
  | ConnectionError (msg : String)
  deriving DecidableEq, Repr

/-- `Permissionship::result` from `permission.rs` lines 142-147:
`Ok(())` for `HasPermission`, `Err(Unauthorized)` for every other
variant (catch-all arm). -/
def Permissionship.result : Permissionship → Except AuthorizationError Unit
  | .HasPermission => .ok ()
  | _ => .error .Unauthorized

/-- `Permissionship::has_permissions` from `permission.rs` lines
166-171: `true` for `HasPermission`, `false` for every other variant
(catch-all arm). -/
def Permissionship.has_permissions : Permissionship → Bool
  | .HasPermission => true
  | _ => false

/-- `AuthorizationResult` from `permission.rs` line 202: a wrapper
around `Result<Permissionship, AuthorizationError>`. -/
structure AuthorizationResult where
  val : Except AuthorizationError Permissionship
  deriving Repr

/-- `AuthorizationResult::has_permissions` from `permission.rs` lines
235-240. -/
def AuthorizationResult.has_permissions (self : AuthorizationResult) : Bool :=
  match self.val with
  | .ok permission => permission.has_permissions
  | .error _ => false

/-- `AuthorizationResult::result` from `permission.rs` lines 292-302. -/
def AuthorizationResult.result (self : AuthorizationResult) :
    Except AuthorizationError Unit :=
  match self.val with
  | .error _ => .error .Unauthorized
  | .ok permissions =>
      if permissions.has_permissions then .ok () else .error .Unauthorized

/-- `SpiceDbConfig` from `config.rs`: endpoint string plus optional
preshared token. -/
structure SpiceDbConfig where
  endpoint : String
  token : Option String
  deriving DecidableEq, Repr

/-- Embedding of Rust `str::starts_with` on string literals: the
pattern's characters are an initial segment of the string's. -/
def strStartsWith (s pattern : String) : Bool :=
  pattern.data.isPrefixOf s.data

/-- The endpoint normalization performed at the top of
`SpiceDbRepository::create_channel` (`spicedb.rs` lines 116-121): keep
the endpoint if it already starts with `"http://"` or `"https://"`,
otherwise prepend `"http://"`. -/
def endpointUrl (config : SpiceDbConfig) : String :=
  if strStartsWith config.endpoint "http://" || strStartsWith config.endpoint "https://" then
    config.endpoint
  else
    "http://" ++ config.endpoint

/-- A tonic `Status` error, modelled by its diagnostic message. -/
structure GrpcStatus where
  message : String
  deriving DecidableEq, Repr

/-- `SpiceDbRepository::create_channel` from `spicedb.rs` lines 114-132.
The two external transport operations, `Channel::from_shared` (URL
parsing) and `Endpoint::connect`, are passed in as oracles returning
either a value or their diagnostic message (`e.to_string()`).  The
second component of the result counts how many connect attempts the
function makes, to state the no-retry property. -/
def create_channel {E C : Type} (fromShared : String → Except String E)
    (connect : E → Except String C) (config : SpiceDbConfig) :
    Except AuthorizationError C × Nat :=
  let endpoint_url := endpointUrl config
  match fromShared endpoint_url with
  | .error e => (.error (.ConnectionError e), 0)
  | .ok endpoint =>
      match connect endpoint with
      | .error e => (.error (.ConnectionError e), 1)
      | .ok channel => (.ok channel, 1)

/-- Whether an authorization-layer result is the `Unauthorized` error. -/
def isUnauthorizedError {C : Type} : Except AuthorizationError C → Bool
  | .error .Unauthorized => true
  | _ => false

/-- A gRPC request's metadata map, modelled as an association list from
lowercase header names to values. -/
structure Request where
  metadata : List (String × String)
  deriving DecidableEq, Repr

/-- `MetadataMap::insert`: sets the value of a key, replacing any
previous entry. -/
def Request.insertMeta (self : Request) (key value : String) : Request :=
  { metadata := (key, value) :: self.metadata.filter (fun p => p.1 ≠ key) }

/-- Look up a metadata key. -/
def Request.getMeta (self : Request) (key : String) : Option String :=
  (self.metadata.find? (fun p => p.1 = key)).map (fun p => p.2)

/-- Validity of an HTTP header value, modelling the check inside tonic's
`MetadataValue::try_from` (via `http::HeaderValue`): every character
must be a horizontal tab or a visible character (code point at least 32
and not the DEL character 127). -/
def isValidHeaderValue (s : String) : Bool :=
  s.data.all fun c => c == '\t' || (32 ≤ c.toNat && c.toNat ≠ 127)

/-- `AuthInterceptor` from `grpc_auth.rs`: holds the static token
configured at construction. -/
structure AuthInterceptor where
  token : String
  deriving DecidableEq, Repr

/-- `AuthInterceptor::new` from `grpc_auth.rs` lines 10-12. -/
def AuthInterceptor.new (token : String) : AuthInterceptor :=
  { token := token }

/-- `impl Interceptor for AuthInterceptor` (`grpc_auth.rs` lines 15-31):
when the token is non-empty, format `"Bearer {token}"`, convert it to a
metadata value (failing with an internal status if the bytes are not a
valid header value), and insert it under the `"authorization"` key;
when the token is empty, pass the request through untouched. -/
def AuthInterceptor.call (self : AuthInterceptor) (request : Request) :
    Except GrpcStatus Request :=
  if self.token ≠ "" then
    let token := "Bearer " ++ self.token
    if isValidHeaderValue token then
      .ok (request.insertMeta "authorization" token)
    else
      .error { message := "Invalid token" }
  else
    .ok request

/-- The interceptor built by `SpiceDbRepository::new` (`spicedb.rs`
lines 99-112): the configured token with `unwrap_or_default()` applied,
so an absent token becomes the empty string. -/
def SpiceDbRepository.newInterceptor (config : SpiceDbConfig) : AuthInterceptor :=
  AuthInterceptor.new (config.token.getD "")

/-- `SubjectReference` from the authzed proto, restricted to the field
this client sets; the remaining fields keep their wire defaults. -/
structure SubjectReference where
  object : Option ObjectReference
  deriving DecidableEq, Repr

/-- `CheckPermissionRequest` from the authzed proto, restricted to the
fields this client sets; the remaining fields keep their wire
defaults. -/
structure CheckPermissionRequest where
  resource : Option ObjectReference
  permission : String
  subject : Option SubjectReference
  deriving DecidableEq, Repr

/-- The `CheckPermissionRequest` that `check_permissions_raw` builds
(`spicedb.rs` lines 359-370): the resource reference, the subject
wrapped in a `SubjectReference`, and the permission string. -/
def buildCheckRequest (resource : ObjectReference) (permission : String)
    (subject : ObjectReference) : CheckPermissionRequest :=
  { resource := some resource
    permission := permission
    subject := some { object := some subject } }

/-- `SpiceDbRepository::check_permissions_raw` from `spicedb.rs` lines
353-381.  The remote gRPC call is the oracle `remote`, which returns
either a tonic status or a `CheckPermissionResponse`.  Any remote
failure is discarded by `map_err(|_| Unauthorized)`; on success the
response's `permissionship()` accessor value is returned. -/
def check_permissions_raw
    (remote : CheckPermissionRequest → Except GrpcStatus CheckPermissionResponse)
    (resource : ObjectReference) (permission : String)
    (subject : ObjectReference) : Except AuthorizationError Permissionship :=
  match remote (buildCheckRequest resource permission subject) with
  | .error _ => .error .Unauthorized
  | .ok check_response => .ok check_response.permissionshipAccessor

/-- `SpiceDbRepository::check_permissions` from `spicedb.rs` lines
245-257: convert resource and subject through the object model and the
permission through its string encoding, delegate to the raw check, and
wrap the outcome. -/
def check_permissions
    (remote : CheckPermissionRequest → Except GrpcStatus CheckPermissionResponse)
    (resource : SpiceDbObject) (permission : Permissions)
    (subject : SpiceDbObject) : AuthorizationResult :=
  { val := check_permissions_raw remote resource.intoObjectReference
      permission.toString subject.intoObjectReference }

/-- C1: evaluating the wire conversion at concrete inputs shows that for
every variant the source populates `object_type` with the caller's
identifier and `object_id` with the namespace name — the two components
are swapped relative to the documented wire encoding, so the converted
`object_type` for `Server "s1"` is not the namespace `"server"`. -/
theorem into_object_reference_swaps_components :
    (SpiceDbObject.Server "s1").intoObjectReference =
        { object_type := "s1", object_id := "server" } ∧
    (SpiceDbObject.Channel "c1").intoObjectReference =
        { object_type := "c1", object_id := "channel" } ∧
    (SpiceDbObject.User "u1").intoObjectReference =
        { object_type := "u1", object_id := "user" } ∧
    (SpiceDbObject.PermissionOverride "o1").intoObjectReference =
        { object_type := "o1", object_id := "permission_override" } ∧
    ((SpiceDbObject.Server "s1").intoObjectReference.object_type == "server") = false := by
  refine ⟨rfl, rfl, rfl, rfl, by decide⟩

/-- C2 counterexample: the claim says the wire string of
`Administrator` is the snake_case token `"administrator"`; the encoding
in the source emits `"admin"`, so the claimed equation is false. -/
theorem administrator_wire_string_is_not_administrator :
    (Permissions.toString .Administrator == "administrator") = false := by
  decide

/-- C2 amended: every one of the twelve permission variants has exactly
one stable wire string, and the actual tokens are those written in the
source's `Display` implementation: `admin`, `manage`, `manage_role`,
`create_invitation`, `manage_channels`, `manage_webhooks`,
`view_channel`, `send_message`, `manage_nicknames`, `change_nickname`,
`manage_message`, `attach_files`. -/
theorem permissions_wire_strings :
    Permissions.toString .Administrator = "admin" ∧
    Permissions.toString .ManageServer = "manage" ∧
    Permissions.toString .ManageRoles = "manage_role" ∧
    Permissions.toString .CreateInvitation = "create_invitation" ∧
    Permissions.toString .ManageChannels = "manage_channels" ∧
    Permissions.toString .ManageWebhooks = "manage_webhooks" ∧
    Permissions.toString .ViewChannels = "view_channel" ∧
    Permissions.toString .SendMessages = "send_message" ∧
    Permissions.toString .ManageNicknames = "manage_nicknames" ∧
    Permissions.toString .ChangeNickname = "change_nickname" ∧
    Permissions.toString .ManageMessages = "manage_message" ∧
    Permissions.toString .AttachFiles = "attach_files" := by
  refine ⟨rfl, rfl, rfl, rfl, rfl, rfl, rfl, rfl, rfl, rfl, rfl, rfl⟩

/-- C3: `AuthorizationResult.has_permissions` is `true` exactly when
the wrapped value is `Ok HasPermission`; every other wrapped value —
`NoPermission`, `ConditionalPermission`, `Unspecified`, or either error
variant — yields `false`. -/
theorem has_permissions_iff_ok_has_permission (r : AuthorizationResult) :
    r.has_permissions = true ↔ r.val = Except.ok Permissionship.HasPermission := by
  obtain ⟨val⟩ := r
  cases val with
  | error e => simp [AuthorizationResult.has_permissions]
  | ok p =>
      cases p <;>
        simp [AuthorizationResult.has_permissions, Permissionship.has_permissions]

/-- C4: `AuthorizationResult.result` returns `Ok ()` exactly when
`has_permissions` returns `true` on the same value, and in every other
case returns the single `Unauthorized` error, regardless of whether the
wrapped value was a denial, a conditional outcome, or an error. -/
theorem result_collapses_to_unauthorized (r : AuthorizationResult) :
    r.result = if r.has_permissions
      then Except.ok ()
      else Except.error AuthorizationError.Unauthorized := by
  obtain ⟨val⟩ := r
  cases val with
  | error e => simp [AuthorizationResult.result, AuthorizationResult.has_permissions]
  | ok p =>
      cases p <;>
        simp [AuthorizationResult.result, AuthorizationResult.has_permissions,
          Permissionship.has_permissions]

/-- C5: whenever the remote call on the built request fails with any
status, `check_permissions_raw` returns the `Unauthorized` error,
discarding the transport failure; whenever the remote call succeeds
with a response carrying the wire number of any `Permissionship`
value, the function returns exactly that value, uncollapsed. -/
theorem check_permissions_raw_fail_closed_and_pass_through
    (remote : CheckPermissionRequest → Except GrpcStatus CheckPermissionResponse)
    (resource : ObjectReference) (permission : String) (subject : ObjectReference) :
    (∀ st : GrpcStatus,
        remote (buildCheckRequest resource permission subject) = .error st →
        check_permissions_raw remote resource permission subject =
          .error .Unauthorized) ∧
    (∀ p : Permissionship,
        remote (buildCheckRequest resource permission subject) =
          .ok { permissionship := p.toI32 } →
        check_permissions_raw remote resource permission subject = .ok p) := by
  constructor
  · intro st h
    simp [check_permissions_raw, h]
  · intro p h
    simp [check_permissions_raw, h, CheckPermissionResponse.permissionshipAccessor]
    cases p <;> rfl

/-- C5 witness: at a concrete failing remote the raw check returns
`Unauthorized`, and at a concrete succeeding remote returning wire
number 2 it returns `HasPermission`. -/
theorem check_permissions_raw_fail_closed_witness :
    check_permissions_raw (fun _ => .error { message := "transport unavailable" })
        { object_type := "channel", object_id := "c1" } "view_channel"
        { object_type := "user", object_id := "u1" } =
      .error .Unauthorized ∧
    check_permissions_raw (fun _ => .ok { permissionship := 2 })
        { object_type := "channel", object_id := "c1" } "view_channel"
        { object_type := "user", object_id := "u1" } =
      .ok .HasPermission := by
  constructor
  · exact (check_permissions_raw_fail_closed_and_pass_through _ _ _ _).1
      { message := "transport unavailable" } rfl
  · exact (check_permissions_raw_fail_closed_and_pass_through _ _ _ _).2
      .HasPermission rfl

/-- C6: the interceptor built by repository construction leaves the
request untouched when the configured token is absent or empty, and for
a non-empty token `t` whose formatted value is a valid header value it
inserts the `authorization` key with the value exactly `"Bearer " ++ t`,
which then reads back verbatim. -/
theorem auth_interceptor_header_behavior (config : SpiceDbConfig) (request : Request) :
    (config.token.getD "" = "" →
        (SpiceDbRepository.newInterceptor config).call request = .ok request) ∧
    (∀ t : String, config.token = some t → t ≠ "" →
        isValidHeaderValue ("Bearer " ++ t) = true →
        (SpiceDbRepository.newInterceptor config).call request =
            .ok (request.insertMeta "authorization" ("Bearer " ++ t)) ∧
          (request.insertMeta "authorization" ("Bearer " ++ t)).getMeta
              "authorization" = some ("Bearer " ++ t)) := by
  constructor
  · intro h
    simp [SpiceDbRepository.newInterceptor, AuthInterceptor.new, AuthInterceptor.call, h]
  · intro t ht hne hvalid
    constructor
    · simp [SpiceDbRepository.newInterceptor, AuthInterceptor.new, AuthInterceptor.call,
        ht, hne, hvalid]
    · simp [Request.getMeta, Request.insertMeta]

/-- C6 witness: with no token configured the request passes through
unchanged, and with the token `"abc"` the `authorization` header reads
back as exactly `"Bearer abc"`. -/
theorem auth_interceptor_header_behavior_witness :
    (SpiceDbRepository.newInterceptor { endpoint := "localhost:50051", token := none }).call
        { metadata := [] } = .ok { metadata := [] } ∧
    (SpiceDbRepository.newInterceptor { endpoint := "localhost:50051", token := some "abc" }).call
        { metadata := [] } =
      .ok (({ metadata := [] } : Request).insertMeta "authorization" "Bearer abc") ∧
    (({ metadata := [] } : Request).insertMeta "authorization" "Bearer abc").getMeta
        "authorization" = some "Bearer abc" := by
  refine ⟨?_, ?_, ?_⟩
  · exact (auth_interceptor_header_behavior _ _).1 rfl
  · exact ((auth_interceptor_header_behavior
      { endpoint := "localhost:50051", token := some "abc" } { metadata := [] }).2
      "abc" rfl (by decide) (by decide)).1
  · exact ((auth_interceptor_header_behavior
      { endpoint := "localhost:50051", token := some "abc" } { metadata := [] }).2
      "abc" rfl (by decide) (by decide)).2

/-- C7: when the configured endpoint starts with neither `"http://"`
nor `"https://"`, the connect URL is the endpoint with `"http://"`
prepended; when it already starts with either scheme, the URL is the
endpoint completely unchanged. -/
theorem endpoint_normalization (config : SpiceDbConfig) :
    (strStartsWith config.endpoint "http://" = false →
        strStartsWith config.endpoint "https://" = false →
        endpointUrl config = "http://" ++ config.endpoint) ∧
    (strStartsWith config.endpoint "http://" = true ∨
        strStartsWith config.endpoint "https://" = true →
        endpointUrl config = config.endpoint) := by
  constructor
  · intro h1 h2
    simp [endpointUrl, h1, h2]
  · intro h
    rcases h with h | h <;> simp [endpointUrl, h]

/-- C7 witness: `"localhost:50051"` is normalized to
`"http://localhost:50051"`, and `"https://x:443"` passes through
unchanged. -/
theorem endpoint_normalization_witness :
    endpointUrl { endpoint := "localhost:50051", token := none } =
        "http://localhost:50051" ∧
    endpointUrl { endpoint := "https://x:443", token := none } = "https://x:443" := by
  constructor
  · exact ((endpoint_normalization { endpoint := "localhost:50051", token := none }).1
      (by decide) (by decide)).trans (by decide)
  · exact (endpoint_normalization { endpoint := "https://x:443", token := none }).2
      (Or.inr (by decide))

/-- C8: `create_channel` never produces the `Unauthorized` variant and
makes at most one connect attempt (no retry); its outcome is either a
channel, or a `ConnectionError` whose message is exactly the diagnostic
of the failing step — the URL-parsing step or the connect step. -/
theorem create_channel_error_mapping {E C : Type}
    (fromShared : String → Except String E) (connect : E → Except String C)
    (config : SpiceDbConfig) :
    isUnauthorizedError (create_channel fromShared connect config).1 = false ∧
    (create_channel fromShared connect config).2 ≤ 1 ∧
    ((∃ c, (create_channel fromShared connect config).1 = .ok c) ∨
      ∃ msg, (create_channel fromShared connect config).1 =
          .error (.ConnectionError msg) ∧
        (fromShared (endpointUrl config) = .error msg ∨
          ∃ ep, fromShared (endpointUrl config) = .ok ep ∧
            connect ep = .error msg)) := by
  cases hfs : fromShared (endpointUrl config) with
  | error e =>
      refine ⟨?_, ?_, Or.inr ⟨e, ?_, Or.inl rfl⟩⟩ <;>
        simp [create_channel, hfs, isUnauthorizedError]
  | ok ep =>
      cases hc : connect ep with
      | error e =>
          refine ⟨?_, ?_, Or.inr ⟨e, ?_, Or.inr ⟨ep, rfl, hc⟩⟩⟩ <;>
            simp [create_channel, hfs, hc, isUnauthorizedError]
      | ok c =>
          refine ⟨?_, ?_, Or.inl ⟨c, ?_⟩⟩ <;>
            simp [create_channel, hfs, hc, isUnauthorizedError]

/-- C9: for each of the four variants constructed with any identifier
`s`, `object_name` returns the documented namespace string and `id`
returns `s` unchanged. -/
theorem object_accessors_round_trip (s : String) :
    ((SpiceDbObject.Server s).object_name = "server" ∧
        (SpiceDbObject.Server s).id = s) ∧
    ((SpiceDbObject.Channel s).object_name = "channel" ∧
        (SpiceDbObject.Channel s).id = s) ∧
    ((SpiceDbObject.User s).object_name = "user" ∧
        (SpiceDbObject.User s).id = s) ∧
    ((SpiceDbObject.PermissionOverride s).object_name = "permission_override" ∧
        (SpiceDbObject.PermissionOverride s).id = s) := by
  refine ⟨⟨rfl, rfl⟩, ⟨rfl, rfl⟩, ⟨rfl, rfl⟩, ⟨rfl, rfl⟩⟩

/-- C10: when the backend responds with an unset (zero) or unrecognized
enum number, the raw check returns the fourth, default `Permissionship`
value `Unspecified`; both derived views handle it totally and fail
closed — `has_permissions` is `false` and `result` is the
`Unauthorized` error, exactly as for `NoPermission` and
`ConditionalPermission`, through the catch-all match arm. -/
theorem unspecified_permissionship_fails_closed (n : Int)
    (resource subject : ObjectReference) (permission : String) :
    (n ≠ 1 → n ≠ 2 → n ≠ 3 →
        check_permissions_raw (fun _ => .ok { permissionship := n })
          resource permission subject = .ok .Unspecified) ∧
    check_permissions_raw (fun _ => .ok { permissionship := 0 })
        resource permission subject = .ok .Unspecified ∧
    Permissionship.Unspecified.has_permissions = false ∧
    Permissionship.Unspecified.result = .error .Unauthorized ∧
    (AuthorizationResult.mk (.ok .Unspecified)).has_permissions = false ∧
    (AuthorizationResult.mk (.ok .Unspecified)).result = .error .Unauthorized := by
  refine ⟨?_, ?_, rfl, rfl, rfl, rfl⟩
  · intro h1 h2 h3
    by_cases h0 : n = 0
    · subst h0
      rfl
    · simp [check_permissions_raw, CheckPermissionResponse.permissionshipAccessor,
        Permissionship.fromI32, h0, h1, h2, h3]
  · rfl

/-- C10 witness: at the unrecognized wire number 7 the raw check
returns `Unspecified`, on which both views fail closed. -/
theorem unspecified_permissionship_fails_closed_witness :
    check_permissions_raw (fun _ => .ok { permissionship := 7 })
        { object_type := "channel", object_id := "c1" } "view_channel"
        { object_type := "user", object_id := "u1" } = .ok .Unspecified ∧
    Permissionship.Unspecified.has_permissions = false ∧
    (AuthorizationResult.mk (.ok .Unspecified)).result = .error .Unauthorized := by
  refine ⟨?_, ?_, ?_⟩
  · exact (unspecified_permissionship_fails_closed 7
      { object_type := "channel", object_id := "c1" }
      { object_type := "user", object_id := "u1" } "view_channel").1
      (by decide) (by decide) (by decide)
  · exact (unspecified_permissionship_fails_closed 7
      { object_type := "channel", object_id := "c1" }
      { object_type := "user", object_id := "u1" } "view_channel").2.2.1
  · exact (unspecified_permissionship_fails_closed 7
      { object_type := "channel", object_id := "c1" }
      { object_type := "user", object_id := "u1" } "view_channel").2.2.2.2.2

end Authz
